import Mathlib

/-!
A shallow embedding of the credential-resolution and usage-parsing logic of
the `claude_usage_monitor` package (files `credentials.py` and `api.py`),
with theorems checking the claims of the specification against it.

Modelling conventions:
* Python/JSON dynamic values are `Json`; a JSON object is an association
  list (Python dicts have unique keys, so first-match lookup is faithful).
* Machine floats in the source only ever hold quota fractions and epoch
  seconds; they are modelled as `ℚ`.
* `datetime` values are modelled as their UTC epoch seconds (`ℚ`); the
  code only ever builds timezone-aware UTC datetimes, and `_format_reset`
  reinterprets naive ones as UTC, so the collapse is faithful.
* Python exceptions are explicit: a function that can raise returns
  `Except PyExnKind _`; a `try/except` block is an explicit match on the
  error kind.
-/

/-- Python exception kinds relevant to the embedded code. -/
inductive PyExnKind where
  | valueError
  | osError
  | typeError
  | keyError
  | attributeError
  | overflowError
  deriving DecidableEq, Repr

/-- `str(e)` as the embedding sees it: a fixed representative text per
exception kind (only its identity matters to the theorems). -/
def pyExnStr : PyExnKind → String
  | .valueError => "ValueError"
  | .osError => "OSError"
  | .typeError => "TypeError"
  | .keyError => "KeyError"
  | .attributeError => "AttributeError"
  | .overflowError => "integer division result too large for a float"

/-- Magnitude bound of an IEEE-754 double, `2 ^ 1024`.  CPython true
division of integers raises `OverflowError` when the quotient does not fit
a double: `10 ** 310 / 100` evaluates to `1e308` while `10 ** 400 / 100`
raises (probed on CPython 3.11); rounding at the exact boundary is not
modelled, consistent with the float-to-`ℚ` collapse. -/
def pyFloatLimit : ℚ := 2 ^ 1024

/-- Dynamic JSON / Python values as they appear in the embedded code. -/
inductive Json where
  | null
  | bool (b : Bool)
  | num (q : ℚ)
  | str (s : String)
  | arr (xs : List Json)
  | obj (kvs : List (String × Json))

/-- Python truthiness of a JSON value (`if x:`). -/
def Json.truthy : Json → Bool
  | .null => false
  | .bool b => b
  | .num q => q != 0
  | .str s => s != ""
  | .arr xs => !xs.isEmpty
  | .obj kvs => !kvs.isEmpty

/-- A JSON object body (a Python dict of JSON values). -/
abbrev PyDict := List (String × Json)

/-- `d.get(k)` collapsed to `Option`: a stored JSON `null` reads back as
Python `None`, indistinguishable from an absent key. -/
def PyDict.pyGet (d : PyDict) (k : String) : Option Json :=
  match d.lookup k with
  | some .null => none
  | r => r

/-- `d.get(k, default)`: the stored value when the key is present (even when
it is `null`), the default otherwise. -/
def PyDict.getD (d : PyDict) (k : String) (default : Json) : Json :=
  (d.lookup k).getD default

/-- State of a JSON file on disk, as the loading code distinguishes it:
missing, unreadable (`IOError`), syntactically invalid
(`json.JSONDecodeError`), or holding a parsed JSON value. -/
inductive FileState where
  | absent
  | unreadable
  | invalidJson
  | content (j : Json)

/-- `ClaudeCredentials` from `credentials.py`: session key, optional org id,
provenance tag and subscription type.  The session key and org id are
dynamic values (the code never checks their types). -/
structure ClaudeCredentials where
  session_key : Json
  org_id : Option Json := none
  source : String := "unknown"
  subscription_type : Json := .str "unknown"

/-- The parts of the host environment the credential code reads: the manual
credentials file, the rows the Firefox and Chrome cookie queries would
return (in probe order; a row value may be the empty string), the companion
credentials file of the companion CLI tool, and the settings file. -/
structure Env where
  manualFile : FileState
  firefoxRows : List String
  chromeRows : List String
  claudeCodeFile : FileState
  settingsFile : FileState

/-- `get_manual_credentials`: reads the manual credentials file; returns the
session key and org id when the key is truthy.  `JSONDecodeError` and
`IOError` are caught; calling `.get` on a non-dict JSON value raises an
uncaught `AttributeError`. -/
def get_manual_credentials (st : FileState) : Except PyExnKind (Option (Json × Option Json)) :=
  match st with
  | .absent => .ok none
  | .unreadable => .ok none
  | .invalidJson => .ok none
  | .content (.obj kvs) =>
    let sk := PyDict.getD kvs "session_key" .null
    if sk.truthy then .ok (some (sk, PyDict.pyGet kvs "org_id")) else .ok none
  | .content _ => .error .attributeError

/-- `_get_firefox_cookie`: returns the first row found over the profile
databases, whatever its value (the code only tests that a row exists). -/
def get_firefox_cookie (env : Env) : Option String :=
  env.firefoxRows.head?

/-- `_get_chrome_cookie`: returns the first truthy row value found over the
candidate databases (the code tests `result and result[0]`). -/
def get_chrome_cookie (env : Env) : Option String :=
  env.chromeRows.find? (fun s => s != "")

/-- `get_browser_session_key`: Firefox first, then Chrome, each accepted
only when truthy. -/
def get_browser_session_key (env : Env) : Option String :=
  match get_firefox_cookie env with
  | some k => if k != "" then some k else
      match get_chrome_cookie env with
      | some c => if c != "" then some c else none
      | none => none
  | none =>
      match get_chrome_cookie env with
      | some c => if c != "" then some c else none
      | none => none

/-- `get_claude_code_credentials`: reads the OAuth file of the companion CLI tool; returns credentials tagged `"claude_code"` when an access token is
truthy.  `JSONDecodeError`, `IOError` and `KeyError` are caught; `.get` on
a non-dict value raises an uncaught `AttributeError`. -/
def get_claude_code_credentials (st : FileState) : Except PyExnKind (Option ClaudeCredentials) :=
  match st with
  | .absent => .ok none
  | .unreadable => .ok none
  | .invalidJson => .ok none
  | .content (.obj kvs) =>
    match PyDict.getD kvs "claudeAiOauth" (.obj []) with
    | .obj okvs =>
      let tok := PyDict.getD okvs "accessToken" .null
      if tok.truthy then
        .ok (some { session_key := tok, source := "claude_code",
                    subscription_type := PyDict.getD okvs "subscriptionType" (.str "unknown") })
      else .ok none
    | _ => .error .attributeError
  | .content _ => .error .attributeError

/-- `get_credentials`: manual first, then browser cookies, then the
OAuth token of the companion CLI tool. -/
def get_credentials (env : Env) : Except PyExnKind (Option ClaudeCredentials) :=
  match get_manual_credentials env.manualFile with
  | .error k => .error k
  | .ok (some (sk, oid)) =>
    .ok (some { session_key := sk, org_id := oid, source := "manual" })
  | .ok none =>
    match get_browser_session_key env with
    | some k => .ok (some { session_key := .str k, source := "browser" })
    | none => get_claude_code_credentials env.claudeCodeFile

/-- `get_settings`: the parsed settings file, or the default
`{"dark_mode": False}` when the file is absent, unreadable or invalid. -/
def get_settings (st : FileState) : Json :=
  match st with
  | .content j => j
  | _ => .obj [("dark_mode", .bool false)]

/-- `is_dark_mode`: `get_settings().get("dark_mode", False)`; raises
`AttributeError` when the settings file held valid non-object JSON. -/
def is_dark_mode (st : FileState) : Except PyExnKind Json :=
  match get_settings st with
  | .obj kvs => .ok (PyDict.getD kvs "dark_mode" (.bool false))
  | _ => .error .attributeError

/-- Python `int(x)` on a float: truncation toward zero. -/
def pyInt (q : ℚ) : ℤ :=
  if 0 ≤ q then ⌊q⌋ else ⌈q⌉

/-- `UsageData` from `api.py`: the usage snapshot record with its
constructor defaults. -/
structure UsageData where
  short_term_usage : ℚ := 0
  short_term_reset : Option ℚ := none
  long_term_usage : ℚ := 0
  long_term_reset : Option ℚ := none
  subscription_type : Json := .str "unknown"
  credential_source : String := "unknown"
  is_connected : Bool := false
  error : Option String := none

/-- `UsageData.short_term_percent`: `int(short_term_usage * 100)`. -/
def UsageData.short_term_percent (u : UsageData) : ℤ :=
  pyInt (u.short_term_usage * 100)

/-- `UsageData.long_term_percent`: `int(long_term_usage * 100)`. -/
def UsageData.long_term_percent (u : UsageData) : ℤ :=
  pyInt (u.long_term_usage * 100)

/-- `UsageData.max_usage`. -/
def UsageData.max_usage (u : UsageData) : ℚ :=
  max u.short_term_usage u.long_term_usage

/-- `UsageData._format_reset`, with `now` the current UTC instant.  The
`tzinfo is None` branch is the identity here: datetimes are modelled as
their UTC instants. -/
def format_reset (now : ℚ) (reset : Option ℚ) : String :=
  match reset with
  | none => "Unknown"
  | some r =>
    let totalSeconds := r - now
    if totalSeconds ≤ 0 then "Now"
    else
      let t := pyInt totalSeconds
      let hours := t / 3600
      let minutes := t % 3600 / 60
      if hours > 0 then s!"{hours}h {minutes}m" else s!"{minutes}m"

/-- `datetime.fromtimestamp(q, tz=timezone.utc)`: the instant itself for
epoch seconds within the representable datetime range (year 1 to 9999).
Outside that range but within the platform `time_t` range (`|q| ≤ 2 ^ 63`)
CPython raises `ValueError` (year out of range) or `OSError` (EOVERFLOW) —
both members of the caught set of `_parse_timestamp`, modelled as
`valueError`.  Beyond the `time_t` range it raises an uncaught
`OverflowError` ("timestamp out of range for platform time_t"); all three
regions probed on CPython 3.11 / Linux x86-64, where int and float inputs
behave alike by magnitude. -/
def fromtimestampUtc (q : ℚ) : Except PyExnKind ℚ :=
  if -62135596800 ≤ q ∧ q < 253402300800 then .ok q
  else if -(2 ^ 63) ≤ q ∧ q ≤ 2 ^ 63 then .error .valueError
  else .error .overflowError

/-- The body of the `try` block of `ClaudeAPI._parse_timestamp`,
parameterised by `fromiso`, the behaviour of `datetime.fromisoformat`
(which fails only with `ValueError`, modelled as `none`).  `ts / 1000` is
CPython true division: for an integer whose quotient exceeds the double
range it raises an uncaught `OverflowError` (positivity of `ts` is
guaranteed by the `> 1e12` guard, so the magnitude check is one-sided).
Falling through both `isinstance` tests reaches the final `return None`. -/
def timestampAttempt (fromiso : String → Option ℚ) (ts : Json) : Except PyExnKind (Option ℚ) :=
  match ts with
  | .num q =>
    if q > 10 ^ 12 then
      if q / 1000 < pyFloatLimit then (fromtimestampUtc (q / 1000)).map some
      else .error .overflowError
    else (fromtimestampUtc q).map some
  | .bool b => (fromtimestampUtc (if b then 1 else 0)).map some
  | .str s =>
    match fromiso (s.replace "Z" "+00:00") with
    | some t => .ok (some t)
    | none => .error .valueError
  | _ => .ok none

/-- `ClaudeAPI._parse_timestamp` before its `except (ValueError, OSError)`
clause swallows the caught kinds: the falsiness guard, the `try` block,
and the catch. -/
def parse_timestamp_raw (fromiso : String → Option ℚ) (ts : Json) : Except PyExnKind (Option ℚ) :=
  if !ts.truthy then .ok none
  else
    match timestampAttempt fromiso ts with
    | .ok r => .ok r
    | .error k =>
      if k = .valueError ∨ k = .osError then .ok none else .error k

/-- `ClaudeAPI._parse_timestamp` as its callers see it (its `try/except`
catches every exception the body can raise). -/
def parse_timestamp (fromiso : String → Option ℚ) (ts : Json) : Option ℚ :=
  match parse_timestamp_raw fromiso ts with
  | .ok r => r
  | .error _ => none

/-- Python `x / 100` on a dynamic value: numbers (including booleans)
divide, anything else raises `TypeError`.  True division of an integer
whose quotient exceeds the double range raises an uncaught
`OverflowError` (a float operand is itself below `pyFloatLimit`, so only
big integers reach that branch). -/
def pyDiv100 : Json → Except PyExnKind ℚ
  | .num q => if |q| / 100 < pyFloatLimit then .ok (q / 100) else .error .overflowError
  | .bool b => .ok ((if b then (1 : ℚ) else 0) / 100)
  | _ => .error .typeError

/-- The short-term branch of the `try` block of `_parse_usage_response` (the
`five_hour` / `dailyUsage` section), threading the partially built snapshot.
A raised exception carries the snapshot state at the raise point. -/
def parseShortTerm (fromiso : String → Option ℚ) (d : PyDict) (u : UsageData) :
    Except (PyExnKind × UsageData) UsageData :=
  match d.lookup "five_hour" with
  | some fh =>
    match fh with
    | .obj kvs =>
      match pyDiv100 (PyDict.getD kvs "utilization" (.num 0)) with
      | .error k => .error (k, u)
      | .ok v =>
        let u := { u with short_term_usage := v }
        match kvs.lookup "resets_at" with
        | some ts =>
          match parse_timestamp_raw fromiso ts with
          | .error k => .error (k, u)
          | .ok r => .ok { u with short_term_reset := r }
        | none => .ok u
    | _ => .ok u
  | none =>
    match d.lookup "dailyUsage" with
    | some daily =>
      match daily with
      | .obj kvs =>
        match pyDiv100 (PyDict.getD kvs "percentUsed" (.num 0)) with
        | .error k => .error (k, u)
        | .ok v =>
          let u := { u with short_term_usage := v }
          match kvs.lookup "resetsAt" with
          | some ts =>
            match parse_timestamp_raw fromiso ts with
            | .error k => .error (k, u)
            | .ok r => .ok { u with short_term_reset := r }
          | none => .ok u
      | _ => .ok u
    | none => .ok u

/-- The long-term branch of the `try` block of `_parse_usage_response` (the
`seven_day` / `longTermUsage` section). -/
def parseLongTerm (fromiso : String → Option ℚ) (d : PyDict) (u : UsageData) :
    Except (PyExnKind × UsageData) UsageData :=
  match d.lookup "seven_day" with
  | some sv =>
    match sv with
    | .obj kvs =>
      match pyDiv100 (PyDict.getD kvs "utilization" (.num 0)) with
      | .error k => .error (k, u)
      | .ok v =>
        let u := { u with long_term_usage := v }
        match kvs.lookup "resets_at" with
        | some ts =>
          match parse_timestamp_raw fromiso ts with
          | .error k => .error (k, u)
          | .ok r => .ok { u with long_term_reset := r }
        | none => .ok u
    | _ => .ok u
  | none =>
    match d.lookup "longTermUsage" with
    | some lt =>
      match lt with
      | .obj kvs =>
        match pyDiv100 (PyDict.getD kvs "percentUsed" (.num 0)) with
        | .error k => .error (k, u)
        | .ok v =>
          let u := { u with long_term_usage := v }
          match kvs.lookup "resetsAt" with
          | some ts =>
            match parse_timestamp_raw fromiso ts with
            | .error k => .error (k, u)
            | .ok r => .ok { u with long_term_reset := r }
          | none => .ok u
      | _ => .ok u
    | none => .ok u

/-- The snapshot `_parse_usage_response` constructs before its `try` block:
defaults except for the subscription type and the connectivity flag. -/
def parseInit (creds : Option ClaudeCredentials) : UsageData :=
  { subscription_type := match creds with
      | some c => c.subscription_type
      | none => .str "unknown",
    is_connected := true }

/-- `ClaudeAPI._parse_usage_response`: initial snapshot, the `try` block,
and the `except (KeyError, TypeError, ValueError): pass` clause.  Only an
exception of another kind would propagate. -/
def parse_usage_response_raw (fromiso : String → Option ℚ)
    (creds : Option ClaudeCredentials) (d : PyDict) : Except PyExnKind UsageData :=
  match (parseShortTerm fromiso d (parseInit creds)).bind (parseLongTerm fromiso d) with
  | .ok u => .ok u
  | .error (k, u) =>
    if k = .keyError ∨ k = .typeError ∨ k = .valueError then .ok u else .error k

/-- The value of `_parse_usage_response` when it completes.  When the raw
parser propagates an uncaught exception (where the Python function raises
and produces no snapshot at all) this total wrapper yields the initial
snapshot; every caller that cares about raising inspects
`parse_usage_response_raw` instead. -/
def parse_usage_response (fromiso : String → Option ℚ)
    (creds : Option ClaudeCredentials) (d : PyDict) : UsageData :=
  match parse_usage_response_raw fromiso creds d with
  | .ok u => u
  | .error _ => { is_connected := true }

/-- Python `a or b` over optional dynamic values (used for
`self.creds.org_id or self._get_organization_id()`). -/
def pyOr (a : Option Json) (b : Option Json) : Option Json :=
  match a with
  | some j => if j.truthy then some j else b
  | none => b

/-- Truthiness of an optional dynamic value (`if not org_id:`). -/
def truthyOpt : Option Json → Bool
  | some j => j.truthy
  | none => false

/-- Outcome of the single HTTP GET in `fetch_usage`: a response (status,
text body, and the result of `response.json()` — `.error msg` when decoding
raises), or one of the exception classes the code distinguishes. -/
inductive RequestOutcome where
  | response (status : Nat) (text : String) (body : Except String PyDict)
  | timeout
  | connectionError
  | otherException (msg : String)

/-- `"Just a moment" in response.text`. -/
def cloudflareBlocked (text : String) : Bool :=
  decide ("Just a moment".toList <:+: text.toList)

/-- `ClaudeAPI.fetch_usage`, over the credentials cached at construction,
the org id the bootstrap endpoint would yield, and the HTTP outcome.  A
200 response whose parse raises an uncaught exception falls to the
generic `except Exception` handler, which returns a snapshot whose error
is the exception text. -/
def fetch_usage (fromiso : String → Option ℚ) (creds : Option ClaudeCredentials)
    (orgFromApi : Option Json) (outcome : RequestOutcome) : UsageData :=
  match creds with
  | none => { error := some "No credentials. Click Settings to configure." }
  | some c =>
    let org_id := pyOr c.org_id orgFromApi
    if !truthyOpt org_id then
      { subscription_type := c.subscription_type,
        credential_source := c.source,
        error := some "Could not get organization ID. Check your session key." }
    else
      match outcome with
      | .response status text body =>
        if status = 200 then
          match body with
          | .ok d =>
            match parse_usage_response_raw fromiso (some c) d with
            | .ok u => { u with credential_source := c.source }
            | .error k => { credential_source := c.source, error := some (pyExnStr k) }
          | .error msg => { credential_source := c.source, error := some msg }
        else if status = 401 then
          { credential_source := c.source,
            error := some "Session expired. Update your session key." }
        else if status = 403 then
          if cloudflareBlocked text then
            { credential_source := c.source,
              error := some "Blocked by Cloudflare. Try again later." }
          else
            { credential_source := c.source, error := some "Access forbidden" }
        else
          { credential_source := c.source, error := some s!"HTTP {status}" }
      | .timeout => { credential_source := c.source, error := some "Timed out" }
      | .connectionError => { credential_source := c.source, error := some "Connection failed" }
      | .otherException msg => { credential_source := c.source, error := some msg }

/-- The quota sub-dict a parsing branch settles on: the current-format key
when present (and only then, even when its value is not a dict), otherwise
the legacy key.  The flag records which format was chosen. -/
def selectedQuota (d : PyDict) (cur leg : String) : Option (PyDict × Bool) :=
  match d.lookup cur with
  | some (.obj kvs) => some (kvs, true)
  | some _ => none
  | none =>
    match d.lookup leg with
    | some (.obj kvs) => some (kvs, false)
    | _ => none

/-- The value a parsing branch divides by 100: `utilization` in the current
format, `percentUsed` in the legacy one, defaulting to `0`. -/
def quotaVal (sel : Option (PyDict × Bool)) : Option Json :=
  sel.map fun p => PyDict.getD p.1 (if p.2 then "utilization" else "percentUsed") (.num 0)

/-- The raw reset timestamp a parsing branch would parse, when present:
`resets_at` in the current format, `resetsAt` in the legacy one. -/
def quotaReset (sel : Option (PyDict × Bool)) : Option Json :=
  sel.bind fun p => p.1.lookup (if p.2 then "resets_at" else "resetsAt")

/-- Abstraction of the tray display update (`_update_display` in
`tray.py`): with no snapshot or a disconnected one it renders the
disconnected state; otherwise two rings whose percentages and tooltip
countdowns are derived from the snapshot (pixmap drawing is not
modelled). -/
inductive Display where
  | disconnected
  | rings (pct5 pct7 : ℤ) (reset5 reset7 : String)

def update_display (now : ℚ) (ud : Option UsageData) : Display :=
  match ud with
  | none => .disconnected
  | some u =>
    if !u.is_connected then .disconnected
    else .rings u.short_term_percent u.long_term_percent
      (format_reset now u.short_term_reset) (format_reset now u.long_term_reset)

/-- A credential file state whose parsed content, when present, is a JSON
object (what the loaders assume before calling `.get` on it). -/
def fileIsObj : FileState → Bool
  | .content (.obj _) => true
  | .content _ => false
  | _ => true

/-- Well-formedness of the credentials file of the companion CLI tool: parsed
content is an object whose `claudeAiOauth` entry, if any, is an object. -/
def claudeFileOk : FileState → Bool
  | .content (.obj kvs) =>
    match PyDict.getD kvs "claudeAiOauth" (.obj []) with
    | .obj _ => true
    | _ => false
  | .content _ => false
  | _ => true

/-- Environments in which every JSON value the credential loaders call
`.get` on is an object. -/
def EnvWf (env : Env) : Bool :=
  fileIsObj env.manualFile && claudeFileOk env.claudeCodeFile

/-- A bound on the dynamic value a usage branch divides by 100: when it is
a number it lies in [0, 100] (the API reports percentages as numbers in
that range). -/
def boundedQuotaVal : Option Json → Prop
  | some (.num q) => 0 ≤ q ∧ q ≤ 100
  | _ => True

/-- An `fromisoformat` oracle that accepts nothing; used to instantiate
oracle-parameterised theorems at concrete inputs. -/
def noneIso : String → Option ℚ := fun _ => none

/-- An environment whose manual credentials file holds valid JSON that is
not an object. -/
def envManualNonObj : Env :=
  { manualFile := .content (.str "oops"), firefoxRows := [], chromeRows := [],
    claudeCodeFile := .absent, settingsFile := .absent }

/-- A usage response reporting a 250 percent short-term utilization. -/
def overUtilization : PyDict := [("five_hour", .obj [("utilization", .num 250)])]

/-- An environment with a well-formed manual credentials file and a
Firefox cookie row; the manual key must win. -/
def envManualExample : Env :=
  { manualFile := .content (.obj [("session_key", .str "sk-abc"), ("org_id", .str "org-1")]),
    firefoxRows := ["ff-key"], chromeRows := [], claudeCodeFile := .absent,
    settingsFile := .absent }

/-- A usage response with both the current and the legacy short-term keys;
the legacy one reports a different percentage. -/
def quotaFifty : PyDict :=
  [("five_hour", .obj [("utilization", .num 50)]),
   ("dailyUsage", .obj [("percentUsed", .num 99)])]

/-- `quotaFifty` without its legacy entry. -/
def quotaFiftyNoLegacy : PyDict := [("five_hour", .obj [("utilization", .num 50)])]

/-- A concrete manual credential for instantiating the fetch theorems. -/
def credsExample : ClaudeCredentials :=
  { session_key := .str "sk-abc", org_id := some (.str "org-1"), source := "manual" }

/-- A value that a quota branch can divide by 100 without an uncaught
`OverflowError`: when numeric, its quotient magnitude fits a double (a
non-number raises a caught `TypeError` instead). -/
def divisionSafe : Option Json → Prop
  | some (.num q) => |q| / 100 < pyFloatLimit
  | _ => True

/-- A timestamp value on which `_parse_timestamp` raises nothing uncaught:
numeric magnitudes within the platform `time_t` range (beyond it CPython
raises `OverflowError` from either the `/ 1000` scaling or
`fromtimestamp`); every non-numeric value is harmless. -/
def tsSafe : Json → Prop
  | .num q => |q| ≤ 2 ^ 63
  | _ => True

/-- `tsSafe` lifted to the optional reset entry of a quota dict. -/
def timestampSafe : Option Json → Prop
  | some ts => tsSafe ts
  | none => True

/-- A usage response whose short-term utilization is the integer
`10 ^ 400`: legal JSON, delivered by `response.json()` as a Python int,
whose division by 100 raises an uncaught `OverflowError`. -/
def hugeUtil : PyDict := [("five_hour", .obj [("utilization", .num (10 ^ 400))])]

theorem fromtimestampUtc_error {q : ℚ} {k : PyExnKind} (h : fromtimestampUtc q = .error k) :
    k = .valueError ∨ k = .overflowError := by
  unfold fromtimestampUtc at h
  split at h
  · cases h
  · split at h
    · cases h
      exact .inl rfl
    · cases h
      exact .inr rfl

theorem fromtimestampUtc_error_band {q : ℚ} {k : PyExnKind} (hq : |q| ≤ 2 ^ 63)
    (h : fromtimestampUtc q = .error k) : k = .valueError := by
  obtain ⟨h1, h2⟩ := abs_le.mp hq
  unfold fromtimestampUtc at h
  by_cases hin : -62135596800 ≤ q ∧ q < 253402300800
  · rw [if_pos hin] at h
    cases h
  · rw [if_neg hin, if_pos ⟨h1, h2⟩] at h
    cases h
    rfl

theorem timestampAttempt_error {fromiso : String → Option ℚ} {ts : Json} {k : PyExnKind}
    (h : timestampAttempt fromiso ts = .error k) : k = .valueError ∨ k = .overflowError := by
  cases ts with
  | num q =>
    unfold timestampAttempt at h
    dsimp only at h
    split at h
    · split at h
      · rcases he : fromtimestampUtc (q / 1000) with k2 | t <;> rw [he] at h
        · cases h
          exact fromtimestampUtc_error he
        · cases h
      · cases h
        exact .inr rfl
    · rcases he : fromtimestampUtc q with k2 | t <;> rw [he] at h
      · cases h
        exact fromtimestampUtc_error he
      · cases h
  | bool b =>
    unfold timestampAttempt at h
    dsimp only at h
    rcases he : fromtimestampUtc (if b then 1 else 0) with k2 | t <;> rw [he] at h
    · cases h
      exact fromtimestampUtc_error he
    · cases h
  | str s =>
    unfold timestampAttempt at h
    dsimp only at h
    rcases he : fromiso (s.replace "Z" "+00:00") with _ | t <;> rw [he] at h
    · cases h
      exact .inl rfl
    · cases h
  | null => cases h
  | arr xs => cases h
  | obj kvs => cases h

theorem fromtimestampUtc_overflow {q : ℚ} (h : fromtimestampUtc q = .error .overflowError) :
    2 ^ 63 < |q| := by
  unfold fromtimestampUtc at h
  split at h
  · cases h
  · split at h
    · cases h
    · next hband =>
      rcases not_and_or.mp hband with hb | hb
      · have : q < -(2 ^ 63) := by linarith [not_le.mp hb]
        calc (2 ^ 63 : ℚ) < -q := by linarith
          _ ≤ |q| := neg_le_abs q
      · calc (2 ^ 63 : ℚ) < q := not_le.mp hb
          _ ≤ |q| := le_abs_self q

/-- On a timestamp within the safe magnitude band, the `try` block raises
only the caught `ValueError`/`OSError` kinds. -/
theorem timestampAttempt_safe {fromiso : String → Option ℚ} {ts : Json} {k : PyExnKind}
    (hs : tsSafe ts) (h : timestampAttempt fromiso ts = .error k) : k = .valueError := by
  rcases timestampAttempt_error h with rfl | rfl
  · rfl
  · exfalso
    cases ts with
    | num q =>
      simp only [tsSafe] at hs
      unfold timestampAttempt at h
      dsimp only at h
      split at h
      · split at h
        · rcases he : fromtimestampUtc (q / 1000) with k2 | t <;> rw [he] at h
          · cases h
            have hover := fromtimestampUtc_overflow he
            have hd : |q / 1000| ≤ 2 ^ 63 := by
              rw [abs_div, abs_of_nonneg (by norm_num : (0:ℚ) ≤ 1000)]
              calc |q| / 1000 ≤ |q| := div_le_self (abs_nonneg q) (by norm_num)
                _ ≤ 2 ^ 63 := hs
            linarith
          · cases h
        · next hfit =>
          have hq : q ≤ 2 ^ 63 := le_of_abs_le hs
          apply hfit
          calc q / 1000 ≤ 2 ^ 63 / 1000 := by linarith
            _ < pyFloatLimit := by norm_num [pyFloatLimit]
      · rcases he : fromtimestampUtc q with k2 | t <;> rw [he] at h
        · cases h
          have hover := fromtimestampUtc_overflow he
          linarith [hover, hs]
        · cases h
    | bool b =>
      unfold timestampAttempt at h
      dsimp only at h
      rcases he : fromtimestampUtc (if b then 1 else 0) with k2 | t <;> rw [he] at h
      · cases h
        have hover := fromtimestampUtc_overflow he
        cases b <;> norm_num at hover
      · cases h
    | str s =>
      unfold timestampAttempt at h
      dsimp only at h
      rcases he : fromiso (s.replace "Z" "+00:00") with _ | t <;> rw [he] at h <;> cases h
    | null => cases h
    | arr xs => cases h
    | obj kvs => cases h

/-- A reduction of `_parse_timestamp` on truthy input: the guard vanishes
and only the `try` block and its catch remain. -/
theorem parse_timestamp_raw_truthy (fromiso : String → Option ℚ) (ts : Json)
    (ht : ts.truthy = true) :
    parse_timestamp_raw fromiso ts =
      match timestampAttempt fromiso ts with
      | .ok r => .ok r
      | .error k =>
        if k = .valueError ∨ k = .osError then .ok none else .error k := by
  unfold parse_timestamp_raw
  rw [ht]
  rfl

/-- The `try` block of `_parse_timestamp` either ends in a state the
`except (ValueError, OSError)` clause covers — and the function returns
the wrapped value — or propagates an `OverflowError`. -/
theorem parse_timestamp_raw_cases (fromiso : String → Option ℚ) (ts : Json) :
    parse_timestamp_raw fromiso ts = .ok (parse_timestamp fromiso ts)
    ∨ parse_timestamp_raw fromiso ts = .error .overflowError := by
  suffices h : (∃ r, parse_timestamp_raw fromiso ts = .ok r)
      ∨ parse_timestamp_raw fromiso ts = .error .overflowError by
    rcases h with ⟨r, hr⟩ | h
    · exact .inl (by rw [hr, parse_timestamp, hr])
    · exact .inr h
  by_cases ht : ts.truthy = true
  · rw [parse_timestamp_raw_truthy fromiso ts ht]
    rcases ha : timestampAttempt fromiso ts with k | r
    · rcases timestampAttempt_error ha with rfl | rfl
      · exact .inl ⟨none, rfl⟩
      · exact .inr rfl
    · exact .inl ⟨r, rfl⟩
  · left
    refine ⟨none, ?_⟩
    unfold parse_timestamp_raw
    rw [Bool.not_eq_true] at ht
    rw [ht]
    rfl

/-- On a timestamp within the safe magnitude band, `_parse_timestamp`
raises nothing uncaught. -/
theorem parse_timestamp_raw_safe (fromiso : String → Option ℚ) (ts : Json) (hs : tsSafe ts) :
    parse_timestamp_raw fromiso ts = .ok (parse_timestamp fromiso ts) := by
  rcases parse_timestamp_raw_cases fromiso ts with h | h
  · exact h
  · exfalso
    by_cases ht : ts.truthy = true
    · rw [parse_timestamp_raw_truthy fromiso ts ht] at h
      rcases ha : timestampAttempt fromiso ts with k | r <;> rw [ha] at h
      · rcases timestampAttempt_safe hs ha with rfl
        cases h
      · cases h
    · unfold parse_timestamp_raw at h
      rw [Bool.not_eq_true] at ht
      rw [ht] at h
      cases h

theorem pyDiv100_error {v : Json} {k : PyExnKind} (h : pyDiv100 v = .error k) :
    k = .typeError ∨ k = .overflowError := by
  cases v with
  | num q =>
    unfold pyDiv100 at h
    dsimp only at h
    split at h
    · cases h
    · cases h
      exact .inr rfl
  | bool b => cases h
  | null => cases h; exact .inl rfl
  | str s => cases h; exact .inl rfl
  | arr xs => cases h; exact .inl rfl
  | obj kvs => cases h; exact .inl rfl

theorem pyDiv100_error_safe {v : Json} {k : PyExnKind} (hs : divisionSafe (some v))
    (h : pyDiv100 v = .error k) : k = .typeError := by
  cases v with
  | num q =>
    simp only [divisionSafe] at hs
    unfold pyDiv100 at h
    dsimp only at h
    rw [if_pos hs] at h
    cases h
  | bool b => cases h
  | null => cases h; rfl
  | str s => cases h; rfl
  | arr xs => cases h; rfl
  | obj kvs => cases h; rfl

/-- The short-term branch either raises — a caught `TypeError` or an
uncaught `OverflowError` — or succeeds; in every outcome only the two
short-term fields may have changed, and a changed usage fraction always
comes from a successful division of the selected quota value by 100. -/
theorem parseShortTerm_shape (iso : String → Option ℚ) (d : PyDict) (u : UsageData) :
    (∃ k su sr, (k = PyExnKind.typeError ∨ k = PyExnKind.overflowError)
      ∧ parseShortTerm iso d u = .error (k, { u with short_term_usage := su, short_term_reset := sr })
      ∧ (su = u.short_term_usage
        ∨ ∃ v, quotaVal (selectedQuota d "five_hour" "dailyUsage") = some v ∧ pyDiv100 v = .ok su))
    ∨ (∃ su sr, parseShortTerm iso d u = .ok { u with short_term_usage := su, short_term_reset := sr }
      ∧ (su = u.short_term_usage
        ∨ ∃ v, quotaVal (selectedQuota d "five_hour" "dailyUsage") = some v ∧ pyDiv100 v = .ok su)) := by
  unfold parseShortTerm
  rcases h5 : d.lookup "five_hour" with _ | fh <;> simp only [h5]
  · rcases hd : d.lookup "dailyUsage" with _ | dy <;> simp only [hd]
    · exact .inr ⟨_, _, rfl, .inl rfl⟩
    · cases dy <;> try exact .inr ⟨_, _, rfl, .inl rfl⟩
      case obj kvs =>
        rcases hdiv : pyDiv100 (PyDict.getD kvs "percentUsed" (.num 0)) with k | q <;> simp only [hdiv]
        · exact .inl ⟨k, u.short_term_usage, u.short_term_reset, pyDiv100_error hdiv, rfl, .inl rfl⟩
        · rcases hr : kvs.lookup "resetsAt" with _ | ts <;> simp only [hr]
          · exact .inr ⟨q, u.short_term_reset, rfl,
              .inr ⟨_, by simp [quotaVal, selectedQuota, h5, hd], hdiv⟩⟩
          · rcases parse_timestamp_raw_cases iso ts with hok | herr
            · rw [hok]
              exact .inr ⟨q, parse_timestamp iso ts, rfl,
                .inr ⟨_, by simp [quotaVal, selectedQuota, h5, hd], hdiv⟩⟩
            · rw [herr]
              exact .inl ⟨.overflowError, q, u.short_term_reset, .inr rfl, rfl,
                .inr ⟨_, by simp [quotaVal, selectedQuota, h5, hd], hdiv⟩⟩
  · cases fh <;> try exact .inr ⟨_, _, rfl, .inl rfl⟩
    case obj kvs =>
      rcases hdiv : pyDiv100 (PyDict.getD kvs "utilization" (.num 0)) with k | q <;> simp only [hdiv]
      · exact .inl ⟨k, u.short_term_usage, u.short_term_reset, pyDiv100_error hdiv, rfl, .inl rfl⟩
      · rcases hr : kvs.lookup "resets_at" with _ | ts <;> simp only [hr]
        · exact .inr ⟨q, u.short_term_reset, rfl,
            .inr ⟨_, by simp [quotaVal, selectedQuota, h5], hdiv⟩⟩
        · rcases parse_timestamp_raw_cases iso ts with hok | herr
          · rw [hok]
            exact .inr ⟨q, parse_timestamp iso ts, rfl,
              .inr ⟨_, by simp [quotaVal, selectedQuota, h5], hdiv⟩⟩
          · rw [herr]
            exact .inl ⟨.overflowError, q, u.short_term_reset, .inr rfl, rfl,
              .inr ⟨_, by simp [quotaVal, selectedQuota, h5], hdiv⟩⟩

/-- Long-term analogue of `parseShortTerm_shape`. -/
theorem parseLongTerm_shape (iso : String → Option ℚ) (d : PyDict) (u : UsageData) :
    (∃ k lu lr, (k = PyExnKind.typeError ∨ k = PyExnKind.overflowError)
      ∧ parseLongTerm iso d u = .error (k, { u with long_term_usage := lu, long_term_reset := lr })
      ∧ (lu = u.long_term_usage
        ∨ ∃ v, quotaVal (selectedQuota d "seven_day" "longTermUsage") = some v ∧ pyDiv100 v = .ok lu))
    ∨ (∃ lu lr, parseLongTerm iso d u = .ok { u with long_term_usage := lu, long_term_reset := lr }
      ∧ (lu = u.long_term_usage
        ∨ ∃ v, quotaVal (selectedQuota d "seven_day" "longTermUsage") = some v ∧ pyDiv100 v = .ok lu)) := by
  unfold parseLongTerm
  rcases h5 : d.lookup "seven_day" with _ | fh <;> simp only [h5]
  · rcases hd : d.lookup "longTermUsage" with _ | dy <;> simp only [hd]
    · exact .inr ⟨_, _, rfl, .inl rfl⟩
    · cases dy <;> try exact .inr ⟨_, _, rfl, .inl rfl⟩
      case obj kvs =>
        rcases hdiv : pyDiv100 (PyDict.getD kvs "percentUsed" (.num 0)) with k | q <;> simp only [hdiv]
        · exact .inl ⟨k, u.long_term_usage, u.long_term_reset, pyDiv100_error hdiv, rfl, .inl rfl⟩
        · rcases hr : kvs.lookup "resetsAt" with _ | ts <;> simp only [hr]
          · exact .inr ⟨q, u.long_term_reset, rfl,
              .inr ⟨_, by simp [quotaVal, selectedQuota, h5, hd], hdiv⟩⟩
          · rcases parse_timestamp_raw_cases iso ts with hok | herr
            · rw [hok]
              exact .inr ⟨q, parse_timestamp iso ts, rfl,
                .inr ⟨_, by simp [quotaVal, selectedQuota, h5, hd], hdiv⟩⟩
            · rw [herr]
              exact .inl ⟨.overflowError, q, u.long_term_reset, .inr rfl, rfl,
                .inr ⟨_, by simp [quotaVal, selectedQuota, h5, hd], hdiv⟩⟩
  · cases fh <;> try exact .inr ⟨_, _, rfl, .inl rfl⟩
    case obj kvs =>
      rcases hdiv : pyDiv100 (PyDict.getD kvs "utilization" (.num 0)) with k | q <;> simp only [hdiv]
      · exact .inl ⟨k, u.long_term_usage, u.long_term_reset, pyDiv100_error hdiv, rfl, .inl rfl⟩
      · rcases hr : kvs.lookup "resets_at" with _ | ts <;> simp only [hr]
        · exact .inr ⟨q, u.long_term_reset, rfl,
            .inr ⟨_, by simp [quotaVal, selectedQuota, h5], hdiv⟩⟩
        · rcases parse_timestamp_raw_cases iso ts with hok | herr
          · rw [hok]
            exact .inr ⟨q, parse_timestamp iso ts, rfl,
              .inr ⟨_, by simp [quotaVal, selectedQuota, h5], hdiv⟩⟩
          · rw [herr]
            exact .inl ⟨.overflowError, q, u.long_term_reset, .inr rfl, rfl,
              .inr ⟨_, by simp [quotaVal, selectedQuota, h5], hdiv⟩⟩

/-- When neither the current nor the legacy short-term key selects a quota
dict, the short-term branch leaves the snapshot untouched. -/
theorem parseShortTerm_noSource (iso : String → Option ℚ) (d : PyDict) (u : UsageData)
    (h : selectedQuota d "five_hour" "dailyUsage" = none) :
    parseShortTerm iso d u = .ok u := by
  unfold selectedQuota at h
  unfold parseShortTerm
  rcases h5 : d.lookup "five_hour" with _ | fh <;>
    rcases hd : d.lookup "dailyUsage" with _ | dy <;>
      simp only [h5, hd] at h ⊢ <;>
      first
        | rfl
        | (cases fh <;> simp_all)
        | (cases dy <;> simp_all)

/-- Long-term analogue of `parseShortTerm_noSource`. -/
theorem parseLongTerm_noSource (iso : String → Option ℚ) (d : PyDict) (u : UsageData)
    (h : selectedQuota d "seven_day" "longTermUsage" = none) :
    parseLongTerm iso d u = .ok u := by
  unfold selectedQuota at h
  unfold parseLongTerm
  rcases h5 : d.lookup "seven_day" with _ | fh <;>
    rcases hd : d.lookup "longTermUsage" with _ | dy <;>
      simp only [h5, hd] at h ⊢ <;>
      first
        | rfl
        | (cases fh <;> simp_all)
        | (cases dy <;> simp_all)

/-- The parsing chain of `_parse_usage_response`: either some step raised
an uncaught `OverflowError` — and `_parse_usage_response` propagates it —
or the function returns a snapshot built from the initial one by setting
only the four quota fields, with every changed fraction coming from a
successful division by 100 and each sourceless quota left at its
defaults. -/
theorem parse_chain (iso : String → Option ℚ) (creds : Option ClaudeCredentials) (d : PyDict) :
    parse_usage_response_raw iso creds d = .error .overflowError
    ∨ ∃ su sr lu lr,
      parse_usage_response_raw iso creds d = .ok
        { short_term_usage := su, short_term_reset := sr,
          long_term_usage := lu, long_term_reset := lr,
          subscription_type := (parseInit creds).subscription_type,
          credential_source := "unknown", is_connected := true, error := none }
      ∧ (su = 0 ∨ ∃ v, quotaVal (selectedQuota d "five_hour" "dailyUsage") = some v ∧ pyDiv100 v = .ok su)
      ∧ (lu = 0 ∨ ∃ v, quotaVal (selectedQuota d "seven_day" "longTermUsage") = some v ∧ pyDiv100 v = .ok lu)
      ∧ (selectedQuota d "five_hour" "dailyUsage" = none → su = 0 ∧ sr = none)
      ∧ (selectedQuota d "seven_day" "longTermUsage" = none → lu = 0 ∧ lr = none) := by
  unfold parse_usage_response_raw
  rcases parseShortTerm_shape iso d (parseInit creds) with ⟨k, su, sr, hk, h1, hsu⟩ | ⟨su, sr, h1, hsu⟩
  · rw [h1]
    have hshortNone : selectedQuota d "five_hour" "dailyUsage" = none → su = 0 ∧ sr = none := by
      intro hn
      have h0 := parseShortTerm_noSource iso d (parseInit creds) hn
      rw [h1] at h0
      cases h0
    rcases hk with rfl | rfl
    · right
      exact ⟨su, sr, 0, none, rfl, hsu, .inl rfl, hshortNone, fun _ => ⟨rfl, rfl⟩⟩
    · left
      rfl
  · rw [h1]
    have hshortNone : selectedQuota d "five_hour" "dailyUsage" = none → su = 0 ∧ sr = none := by
      intro hn
      have h0 := parseShortTerm_noSource iso d (parseInit creds) hn
      rw [h1] at h0
      have h0 := Except.ok.inj h0
      exact ⟨congrArg UsageData.short_term_usage h0, congrArg UsageData.short_term_reset h0⟩
    rcases parseLongTerm_shape iso d { parseInit creds with short_term_usage := su, short_term_reset := sr }
      with ⟨k, lu, lr, hk, h2, hlu⟩ | ⟨lu, lr, h2, hlu⟩
    · rw [Except.bind, h2]
      have hlongNone : selectedQuota d "seven_day" "longTermUsage" = none → lu = 0 ∧ lr = none := by
        intro hn
        have h0 := parseLongTerm_noSource iso d
          { parseInit creds with short_term_usage := su, short_term_reset := sr } hn
        rw [h2] at h0
        cases h0
      rcases hk with rfl | rfl
      · right
        exact ⟨su, sr, lu, lr, rfl, hsu, hlu, hshortNone, hlongNone⟩
      · left
        rfl
    · rw [Except.bind, h2]
      have hlongNone : selectedQuota d "seven_day" "longTermUsage" = none → lu = 0 ∧ lr = none := by
        intro hn
        have h0 := parseLongTerm_noSource iso d
          { parseInit creds with short_term_usage := su, short_term_reset := sr } hn
        rw [h2] at h0
        have h0 := Except.ok.inj h0
        exact ⟨congrArg UsageData.long_term_usage h0, congrArg UsageData.long_term_reset h0⟩
      right
      exact ⟨su, sr, lu, lr, rfl, hsu, hlu, hshortNone, hlongNone⟩

/-- An `_parse_usage_response` run that completes yields a snapshot whose
connectivity flag is set and whose error is empty. -/
theorem parse_raw_ok_fields {iso : String → Option ℚ} {creds : Option ClaudeCredentials}
    {d : PyDict} {u : UsageData} (h : parse_usage_response_raw iso creds d = .ok u) :
    u.error = none ∧ u.is_connected = true := by
  rcases parse_chain iso creds d with herr | ⟨su, sr, lu, lr, hok, -, -, -, -⟩
  · rw [herr] at h
    cases h
  · rw [hok] at h
    cases Except.ok.inj h
    exact ⟨rfl, rfl⟩

theorem parse_usage_response_fields (iso : String → Option ℚ) (creds : Option ClaudeCredentials) (d : PyDict) :
    (parse_usage_response iso creds d).error = none
      ∧ (parse_usage_response iso creds d).is_connected = true := by
  rcases parse_chain iso creds d with herr | ⟨su, sr, lu, lr, hok, -, -, -, -⟩
  · unfold parse_usage_response
    rw [herr]
    exact ⟨rfl, rfl⟩
  · unfold parse_usage_response
    rw [hok]
    exact ⟨rfl, rfl⟩

theorem parseShortTerm_congr (iso : String → Option ℚ) {d₁ d₂ : PyDict} (u : UsageData)
    (h5 : d₁.lookup "five_hour" = d₂.lookup "five_hour")
    (hd : d₁.lookup "dailyUsage" = d₂.lookup "dailyUsage") :
    parseShortTerm iso d₁ u = parseShortTerm iso d₂ u := by
  unfold parseShortTerm
  rw [h5, hd]

theorem parseShortTerm_indep (iso : String → Option ℚ) {d₁ d₂ : PyDict} (u : UsageData) {fh : Json}
    (h1 : d₁.lookup "five_hour" = some fh) (h2 : d₂.lookup "five_hour" = some fh) :
    parseShortTerm iso d₁ u = parseShortTerm iso d₂ u := by
  unfold parseShortTerm
  rw [h1, h2]

theorem parseLongTerm_congr (iso : String → Option ℚ) {d₁ d₂ : PyDict} (u : UsageData)
    (h5 : d₁.lookup "seven_day" = d₂.lookup "seven_day")
    (hd : d₁.lookup "longTermUsage" = d₂.lookup "longTermUsage") :
    parseLongTerm iso d₁ u = parseLongTerm iso d₂ u := by
  unfold parseLongTerm
  rw [h5, hd]

theorem parseLongTerm_indep (iso : String → Option ℚ) {d₁ d₂ : PyDict} (u : UsageData) {sv : Json}
    (h1 : d₁.lookup "seven_day" = some sv) (h2 : d₂.lookup "seven_day" = some sv) :
    parseLongTerm iso d₁ u = parseLongTerm iso d₂ u := by
  unfold parseLongTerm
  rw [h1, h2]

theorem parse_usage_response_congr (iso : String → Option ℚ) (creds : Option ClaudeCredentials)
    {d₁ d₂ : PyDict}
    (hshort : ∀ u, parseShortTerm iso d₁ u = parseShortTerm iso d₂ u)
    (hlong : ∀ u, parseLongTerm iso d₁ u = parseLongTerm iso d₂ u) :
    parse_usage_response iso creds d₁ = parse_usage_response iso creds d₂ := by
  have hlf : parseLongTerm iso d₁ = parseLongTerm iso d₂ := funext hlong
  unfold parse_usage_response parse_usage_response_raw
  rw [hshort, hlf]

theorem claude_code_source_tag (st : FileState) (c : ClaudeCredentials)
    (h : get_claude_code_credentials st = .ok (some c)) : c.source = "claude_code" := by
  unfold get_claude_code_credentials at h
  cases st with
  | absent => exact Option.noConfusion (Except.ok.inj h)
  | unreadable => exact Option.noConfusion (Except.ok.inj h)
  | invalidJson => exact Option.noConfusion (Except.ok.inj h)
  | content j =>
    cases j <;> try exact Except.noConfusion h
    case obj kvs =>
      dsimp only at h
      generalize hG : PyDict.getD kvs "claudeAiOauth" (.obj []) = oauth at h
      cases oauth <;> try exact Except.noConfusion h
      case obj okvs =>
        dsimp only at h
        split at h
        · have hc := Option.some.inj (Except.ok.inj h)
          rw [← hc]
        · exact Option.noConfusion (Except.ok.inj h)

theorem manual_wf_ok (st : FileState) (h : fileIsObj st = true) :
    ∃ r, get_manual_credentials st = .ok r := by
  cases st with
  | absent => exact ⟨none, rfl⟩
  | unreadable => exact ⟨none, rfl⟩
  | invalidJson => exact ⟨none, rfl⟩
  | content j =>
    cases j <;> simp [fileIsObj] at h
    case obj kvs =>
      unfold get_manual_credentials
      dsimp only
      split
      · exact ⟨_, rfl⟩
      · exact ⟨none, rfl⟩

theorem claude_wf_ok (st : FileState) (h : claudeFileOk st = true) :
    ∃ r, get_claude_code_credentials st = .ok r := by
  cases st with
  | absent => exact ⟨none, rfl⟩
  | unreadable => exact ⟨none, rfl⟩
  | invalidJson => exact ⟨none, rfl⟩
  | content j =>
    cases j <;> simp only [claudeFileOk] at h <;> try cases h
    case obj kvs =>
      unfold get_claude_code_credentials
      dsimp only
      rcases ho : PyDict.getD kvs "claudeAiOauth" (.obj []) with _ | _ | _ | _ | _ | okvs <;>
        rw [ho] at h <;> try cases h
      dsimp only
      split
      · exact ⟨_, rfl⟩
      · exact ⟨none, rfl⟩

/-- C1 (amended): over every environment whose credential files, when they
hold valid JSON, hold JSON objects (and an object `claudeAiOauth` entry),
`get_credentials` tries sources in a fixed priority order: the manually
saved session key (with its org id, tagged `"manual"`) wins; otherwise the
first truthy browser cookie (Firefox before Chrome, tagged `"browser"`);
otherwise the companion CLI OAuth token (tagged `"claude_code"`); and the
result is `None` exactly when all three yield nothing.  Every credential
returned carries the provenance tag of its source. -/
theorem get_credentials_priority (env : Env) (hwf : EnvWf env = true) :
    (∀ sk oid, get_manual_credentials env.manualFile = .ok (some (sk, oid)) →
      get_credentials env = .ok (some { session_key := sk, org_id := oid, source := "manual" })) ∧
    (get_manual_credentials env.manualFile = .ok none →
      ∀ k, get_browser_session_key env = some k →
        get_credentials env = .ok (some { session_key := .str k, source := "browser" })) ∧
    (∀ k, get_firefox_cookie env = some k → k ≠ "" → get_browser_session_key env = some k) ∧
    (get_manual_credentials env.manualFile = .ok none →
      get_browser_session_key env = none →
      get_credentials env = get_claude_code_credentials env.claudeCodeFile) ∧
    (∀ c, get_claude_code_credentials env.claudeCodeFile = .ok (some c) → c.source = "claude_code") ∧
    (get_manual_credentials env.manualFile = .ok none →
      get_browser_session_key env = none →
      get_claude_code_credentials env.claudeCodeFile = .ok none →
      get_credentials env = .ok none) ∧
    (∀ c, get_credentials env = .ok (some c) →
      c.source = "manual" ∨ c.source = "browser" ∨ c.source = "claude_code") ∧
    (∃ r, get_credentials env = .ok r) := by
  have hwf1 : fileIsObj env.manualFile = true := by
    have := hwf
    unfold EnvWf at this
    exact (Bool.and_eq_true _ _ |>.mp this).1
  have hwf2 : claudeFileOk env.claudeCodeFile = true := by
    have := hwf
    unfold EnvWf at this
    exact (Bool.and_eq_true _ _ |>.mp this).2
  refine ⟨?_, ?_, ?_, ?_, ?_, ?_, ?_, ?_⟩
  · intro sk oid h
    unfold get_credentials
    rw [h]
  · intro h k hb
    unfold get_credentials
    rw [h, hb]
  · intro k h hne
    unfold get_browser_session_key
    rw [h]
    simp [hne]
  · intro h hb
    unfold get_credentials
    rw [h, hb]
  · exact claude_code_source_tag env.claudeCodeFile
  · intro h hb hc
    unfold get_credentials
    rw [h, hb, hc]
  · intro c h
    unfold get_credentials at h
    rcases hm : get_manual_credentials env.manualFile with k | r
    · rw [hm] at h; exact Except.noConfusion h
    · rcases r with _ | ⟨sk, oid⟩
      · rw [hm] at h
        rcases hb : get_browser_session_key env with _ | bk
        · rw [hb] at h
          exact .inr (.inr (claude_code_source_tag env.claudeCodeFile c h))
        · rw [hb] at h
          have hc := Option.some.inj (Except.ok.inj h)
          rw [← hc]
          exact .inr (.inl rfl)
      · rw [hm] at h
        have hc := Option.some.inj (Except.ok.inj h)
        rw [← hc]
        exact .inl rfl
  · obtain ⟨rm, hm⟩ := manual_wf_ok env.manualFile hwf1
    unfold get_credentials
    rw [hm]
    rcases rm with _ | ⟨sk, oid⟩
    · rcases hb : get_browser_session_key env with _ | bk
      · obtain ⟨rc, hc⟩ := claude_wf_ok env.claudeCodeFile hwf2
        rw [hc]
        exact ⟨rc, rfl⟩
      · exact ⟨_, rfl⟩
    · exact ⟨_, rfl⟩

/-- C1 (counterexample): in the environment whose manual credentials file
holds the valid JSON value `"oops"` (not an object), `get_credentials`
propagates an `AttributeError` instead of returning a credential or
`None`, so the claim does not hold for every environment state. -/
theorem get_credentials_raises_on_non_object_manual :
    get_credentials envManualNonObj = .error .attributeError := rfl

/-- C1 (witness): in a concrete environment with both a manual key and a
Firefox cookie, the manual key wins with source `"manual"`. -/
theorem get_credentials_priority_witness :
    EnvWf envManualExample = true
    ∧ get_credentials envManualExample
        = .ok (some { session_key := .str "sk-abc", org_id := some (.str "org-1"), source := "manual" }) := by
  refine ⟨rfl, ?_⟩
  exact (get_credentials_priority envManualExample rfl).1 (.str "sk-abc") (some (.str "org-1")) rfl

/-- C10: when the settings file is absent, unreadable or invalid JSON,
`get_settings` returns the default `{"dark_mode": False}` and
`is_dark_mode` returns `False`, with no exception. -/
theorem settings_default_on_failure (st : FileState)
    (h : st = .absent ∨ st = .unreadable ∨ st = .invalidJson) :
    get_settings st = .obj [("dark_mode", .bool false)]
      ∧ is_dark_mode st = .ok (.bool false) := by
  rcases h with h | h | h <;> subst h <;> exact ⟨rfl, rfl⟩

/-- C10 (witness): the absent settings file yields the defaults. -/
theorem settings_default_on_failure_witness :
    get_settings .absent = .obj [("dark_mode", .bool false)]
      ∧ is_dark_mode .absent = .ok (.bool false) :=
  settings_default_on_failure .absent (.inl rfl)

/-- Under safe inputs the short-term branch raises only the caught
`TypeError`. -/
theorem parseShortTerm_err_safe (iso : String → Option ℚ) (d : PyDict) (u : UsageData)
    (hdiv : divisionSafe (quotaVal (selectedQuota d "five_hour" "dailyUsage")))
    (hts : timestampSafe (quotaReset (selectedQuota d "five_hour" "dailyUsage")))
    {k : PyExnKind} {u' : UsageData}
    (h : parseShortTerm iso d u = .error (k, u')) : k = .typeError := by
  unfold parseShortTerm at h
  rcases h5 : d.lookup "five_hour" with _ | fh <;> rw [h5] at h
  · rcases hd : d.lookup "dailyUsage" with _ | dy <;> rw [hd] at h
    · cases h
    · cases dy <;> dsimp only at h <;> try cases h
      case obj kvs =>
        simp [selectedQuota, quotaVal, quotaReset, h5, hd] at hdiv hts
        rcases hdv : pyDiv100 (PyDict.getD kvs "percentUsed" (.num 0)) with k2 | q <;> rw [hdv] at h
        · cases h
          exact pyDiv100_error_safe hdiv hdv
        · dsimp only at h
          rcases hr : kvs.lookup "resetsAt" with _ | ts <;> rw [hr] at h <;> dsimp only at h
          · cases h
          · rw [hr] at hts
            simp only [timestampSafe] at hts
            rw [parse_timestamp_raw_safe iso ts hts] at h
            cases h
  · cases fh <;> dsimp only at h <;> try cases h
    case obj kvs =>
      simp [selectedQuota, quotaVal, quotaReset, h5] at hdiv hts
      rcases hdv : pyDiv100 (PyDict.getD kvs "utilization" (.num 0)) with k2 | q <;> rw [hdv] at h
      · cases h
        exact pyDiv100_error_safe hdiv hdv
      · dsimp only at h
        rcases hr : kvs.lookup "resets_at" with _ | ts <;> rw [hr] at h <;> dsimp only at h
        · cases h
        · rw [hr] at hts
          simp only [timestampSafe] at hts
          rw [parse_timestamp_raw_safe iso ts hts] at h
          cases h

/-- Under safe inputs the long-term branch raises only the caught
`TypeError`. -/
theorem parseLongTerm_err_safe (iso : String → Option ℚ) (d : PyDict) (u : UsageData)
    (hdiv : divisionSafe (quotaVal (selectedQuota d "seven_day" "longTermUsage")))
    (hts : timestampSafe (quotaReset (selectedQuota d "seven_day" "longTermUsage")))
    {k : PyExnKind} {u' : UsageData}
    (h : parseLongTerm iso d u = .error (k, u')) : k = .typeError := by
  unfold parseLongTerm at h
  rcases h5 : d.lookup "seven_day" with _ | fh <;> rw [h5] at h
  · rcases hd : d.lookup "longTermUsage" with _ | dy <;> rw [hd] at h
    · cases h
    · cases dy <;> dsimp only at h <;> try cases h
      case obj kvs =>
        simp [selectedQuota, quotaVal, quotaReset, h5, hd] at hdiv hts
        rcases hdv : pyDiv100 (PyDict.getD kvs "percentUsed" (.num 0)) with k2 | q <;> rw [hdv] at h
        · cases h
          exact pyDiv100_error_safe hdiv hdv
        · dsimp only at h
          rcases hr : kvs.lookup "resetsAt" with _ | ts <;> rw [hr] at h <;> dsimp only at h
          · cases h
          · rw [hr] at hts
            simp only [timestampSafe] at hts
            rw [parse_timestamp_raw_safe iso ts hts] at h
            cases h
  · cases fh <;> dsimp only at h <;> try cases h
    case obj kvs =>
      simp [selectedQuota, quotaVal, quotaReset, h5] at hdiv hts
      rcases hdv : pyDiv100 (PyDict.getD kvs "utilization" (.num 0)) with k2 | q <;> rw [hdv] at h
      · cases h
        exact pyDiv100_error_safe hdiv hdv
      · dsimp only at h
        rcases hr : kvs.lookup "resets_at" with _ | ts <;> rw [hr] at h <;> dsimp only at h
        · cases h
        · rw [hr] at hts
          simp only [timestampSafe] at hts
          rw [parse_timestamp_raw_safe iso ts hts] at h
          cases h

/-- C5 (amended): the dual-schema parser returns a `UsageData` without
raising on every input dict whose consulted quota values divide within
the double range and whose consulted reset timestamps lie in the safe
magnitude band; fields of a quota with no usable source keep their
defaults (usage 0.0, reset `None`).  Outside those bounds the parser can
propagate an uncaught `OverflowError` (see the counterexample). -/
theorem parse_usage_response_total (iso : String → Option ℚ)
    (creds : Option ClaudeCredentials) (d : PyDict)
    (hds : divisionSafe (quotaVal (selectedQuota d "five_hour" "dailyUsage")))
    (hts : timestampSafe (quotaReset (selectedQuota d "five_hour" "dailyUsage")))
    (hdl : divisionSafe (quotaVal (selectedQuota d "seven_day" "longTermUsage")))
    (htl : timestampSafe (quotaReset (selectedQuota d "seven_day" "longTermUsage"))) :
    parse_usage_response_raw iso creds d = .ok (parse_usage_response iso creds d)
    ∧ (selectedQuota d "five_hour" "dailyUsage" = none →
        (parse_usage_response iso creds d).short_term_usage = 0
          ∧ (parse_usage_response iso creds d).short_term_reset = none)
    ∧ (selectedQuota d "seven_day" "longTermUsage" = none →
        (parse_usage_response iso creds d).long_term_usage = 0
          ∧ (parse_usage_response iso creds d).long_term_reset = none) := by
  have hok : ∃ u, parse_usage_response_raw iso creds d = .ok u := by
    unfold parse_usage_response_raw
    rcases hs1 : parseShortTerm iso d (parseInit creds) with ⟨k, w⟩ | u1
    · cases parseShortTerm_err_safe iso d (parseInit creds) hds hts hs1
      exact ⟨w, rfl⟩
    · rcases hs2 : parseLongTerm iso d u1 with ⟨k, w⟩ | u2
      · cases parseLongTerm_err_safe iso d u1 hdl htl hs2
        refine ⟨w, ?_⟩
        rw [Except.bind, hs2]
        rfl
      · exact ⟨u2, by rw [Except.bind, hs2]⟩
  obtain ⟨u, hu⟩ := hok
  have hwrap : parse_usage_response iso creds d = u := by
    unfold parse_usage_response
    rw [hu]
  refine ⟨by rw [hwrap]; exact hu, ?_, ?_⟩
  all_goals
    rcases parse_chain iso creds d with herr | ⟨su, sr, lu, lr, hok2, -, -, hsn, hln⟩
  · rw [herr] at hu
    cases hu
  · have hp : parse_usage_response iso creds d =
        { short_term_usage := su, short_term_reset := sr,
          long_term_usage := lu, long_term_reset := lr,
          subscription_type := (parseInit creds).subscription_type,
          credential_source := "unknown", is_connected := true, error := none } := by
      unfold parse_usage_response
      rw [hok2]
    intro hn
    obtain ⟨h1, h2⟩ := hsn hn
    rw [hp]
    exact ⟨h1, h2⟩
  · rw [herr] at hu
    cases hu
  · have hp : parse_usage_response iso creds d =
        { short_term_usage := su, short_term_reset := sr,
          long_term_usage := lu, long_term_reset := lr,
          subscription_type := (parseInit creds).subscription_type,
          credential_source := "unknown", is_connected := true, error := none } := by
      unfold parse_usage_response
      rw [hok2]
    intro hn
    obtain ⟨h1, h2⟩ := hln hn
    rw [hp]
    exact ⟨h1, h2⟩

/-- A response whose short-term utilization is the integer `10 ^ 400`
makes the division raise an uncaught `OverflowError`, which
`_parse_usage_response` propagates. -/
theorem parse_raw_overflow_hugeUtil (iso : String → Option ℚ)
    (creds : Option ClaudeCredentials) :
    parse_usage_response_raw iso creds hugeUtil = .error .overflowError := by
  have hdiv : pyDiv100 (Json.num (10 ^ 400)) = .error .overflowError := by
    unfold pyDiv100
    dsimp only
    rw [if_neg]
    rw [abs_of_nonneg (by positivity : (0:ℚ) ≤ 10 ^ 400)]
    norm_num [pyFloatLimit]
  have hshort : parseShortTerm iso hugeUtil (parseInit creds)
      = .error (.overflowError, parseInit creds) := by
    unfold parseShortTerm
    rw [show List.lookup "five_hour" hugeUtil
      = some (.obj [("utilization", .num (10 ^ 400))]) from rfl]
    dsimp only
    rw [show PyDict.getD [("utilization", Json.num (10 ^ 400))] "utilization" (.num 0)
      = Json.num (10 ^ 400) from rfl]
    rw [hdiv]
  unfold parse_usage_response_raw
  rw [hshort]
  rfl

/-- C5 (counterexample): on the legal JSON response
`{"five_hour": {"utilization": 10 ^ 400}}` the parser propagates an
uncaught `OverflowError` instead of returning a snapshot. -/
theorem parse_raises_on_huge_utilization :
    parse_usage_response_raw noneIso none hugeUtil = .error .overflowError :=
  parse_raw_overflow_hugeUtil noneIso none

/-- C5 (witness): the empty dict is safe on every count and parses to the
all-default snapshot. -/
theorem parse_usage_response_total_witness :
    selectedQuota [] "five_hour" "dailyUsage" = none
    ∧ (parse_usage_response noneIso none []).short_term_usage = 0
    ∧ (parse_usage_response noneIso none []).short_term_reset = none := by
  have h := (parse_usage_response_total noneIso none []
    trivial trivial trivial trivial).2.1 rfl
  exact ⟨rfl, h.1, h.2⟩

theorem parse_usage_response_eq (iso : String → Option ℚ)
    (creds : Option ClaudeCredentials) (d : PyDict) :
    parse_usage_response iso creds d = { is_connected := true }
    ∨ ∃ su sr lu lr,
      parse_usage_response iso creds d =
        { short_term_usage := su, short_term_reset := sr,
          long_term_usage := lu, long_term_reset := lr,
          subscription_type := (parseInit creds).subscription_type,
          credential_source := "unknown", is_connected := true, error := none }
      ∧ (su = 0 ∨ ∃ v, quotaVal (selectedQuota d "five_hour" "dailyUsage") = some v ∧ pyDiv100 v = .ok su)
      ∧ (lu = 0 ∨ ∃ v, quotaVal (selectedQuota d "seven_day" "longTermUsage") = some v ∧ pyDiv100 v = .ok lu) := by
  rcases parse_chain iso creds d with herr | ⟨su, sr, lu, lr, h, hsu, hlu, -, -⟩
  · left
    unfold parse_usage_response
    rw [herr]
  · right
    refine ⟨su, sr, lu, lr, ?_, hsu, hlu⟩
    unfold parse_usage_response
    rw [h]

theorem boundedDiv_unit {w : Option Json} {q : ℚ} (hb : boundedQuotaVal w)
    (hq : q = 0 ∨ ∃ v, w = some v ∧ pyDiv100 v = .ok q) : 0 ≤ q ∧ q ≤ 1 := by
  rcases hq with rfl | ⟨v, rfl, hdiv⟩
  · norm_num
  · cases v with
    | num qq =>
      simp only [pyDiv100] at hdiv
      split at hdiv
      · simp only [Except.ok.injEq] at hdiv
        simp only [boundedQuotaVal] at hb
        rw [← hdiv]
        constructor
        · exact div_nonneg hb.1 (by norm_num)
        · rw [div_le_one (by norm_num)]
          exact hb.2
      · cases hdiv
    | bool b =>
      cases b <;> simp only [pyDiv100, Except.ok.injEq] at hdiv <;> rw [← hdiv] <;> norm_num
    | null => simp [pyDiv100] at hdiv
    | str s => simp [pyDiv100] at hdiv
    | arr xs => simp [pyDiv100] at hdiv
    | obj kvs => simp [pyDiv100] at hdiv

/-- C3 (amended): whenever every numeric utilization/percentUsed value the
parser consults lies in [0, 100], both usage fractions of the resulting
snapshot lie in [0, 1]. -/
theorem parse_fractions_in_unit_interval (iso : String → Option ℚ)
    (creds : Option ClaudeCredentials) (d : PyDict)
    (hs : boundedQuotaVal (quotaVal (selectedQuota d "five_hour" "dailyUsage")))
    (hl : boundedQuotaVal (quotaVal (selectedQuota d "seven_day" "longTermUsage"))) :
    0 ≤ (parse_usage_response iso creds d).short_term_usage
    ∧ (parse_usage_response iso creds d).short_term_usage ≤ 1
    ∧ 0 ≤ (parse_usage_response iso creds d).long_term_usage
    ∧ (parse_usage_response iso creds d).long_term_usage ≤ 1 := by
  rcases parse_usage_response_eq iso creds d with hp | ⟨su, sr, lu, lr, hp, hsu, hlu⟩
  · rw [hp]
    norm_num
  · rw [hp]
    obtain ⟨hs1, hs2⟩ := boundedDiv_unit hs hsu
    obtain ⟨hl1, hl2⟩ := boundedDiv_unit hl hlu
    exact ⟨hs1, hs2, hl1, hl2⟩

/-- C3 (counterexample): the response `{"five_hour": {"utilization": 250}}`
parses to a snapshot whose short-term usage fraction is 2.5, outside
[0, 1]: the parser divides by 100 without clamping. -/
theorem parse_fraction_above_one :
    (parse_usage_response noneIso none overUtilization).short_term_usage = 5 / 2
    ∧ 1 < (parse_usage_response noneIso none overUtilization).short_term_usage := by
  have h : (parse_usage_response noneIso none overUtilization).short_term_usage = 5 / 2 := by
    have hdiv : pyDiv100 (Json.num 250) = .ok (5 / 2) := by
      unfold pyDiv100
      dsimp only
      rw [if_pos (by norm_num [pyFloatLimit])]
      norm_num
    simp [parse_usage_response, parse_usage_response_raw, parseShortTerm, parseLongTerm,
      hdiv, PyDict.getD, List.lookup, Except.bind, overUtilization, parseInit]
  refine ⟨h, ?_⟩
  rw [h]
  norm_num

/-- C3 (witness): a 50 percent utilization yields fractions in [0, 1]. -/
theorem parse_fractions_in_unit_interval_witness :
    0 ≤ (parse_usage_response noneIso none quotaFiftyNoLegacy).short_term_usage
    ∧ (parse_usage_response noneIso none quotaFiftyNoLegacy).short_term_usage ≤ 1
    ∧ 0 ≤ (parse_usage_response noneIso none quotaFiftyNoLegacy).long_term_usage
    ∧ (parse_usage_response noneIso none quotaFiftyNoLegacy).long_term_usage ≤ 1 := by
  refine parse_fractions_in_unit_interval noneIso none quotaFiftyNoLegacy ?_ ?_
  · simp [boundedQuotaVal, quotaVal, selectedQuota, PyDict.getD, List.lookup, quotaFiftyNoLegacy]
    norm_num
  · simp [boundedQuotaVal, quotaVal, selectedQuota, PyDict.getD, List.lookup, quotaFiftyNoLegacy]

/-- C8: when the current-format key for a quota is present, the legacy key
for that quota has no effect on the parsed snapshot: the result is
unchanged under any modification of the legacy entry. -/
theorem parse_prefers_current_format (iso : String → Option ℚ)
    (creds : Option ClaudeCredentials) (d₁ d₂ : PyDict) :
    ((d₁.lookup "five_hour" = d₂.lookup "five_hour") → (d₁.lookup "five_hour").isSome →
      (d₁.lookup "seven_day" = d₂.lookup "seven_day") →
      (d₁.lookup "longTermUsage" = d₂.lookup "longTermUsage") →
      parse_usage_response iso creds d₁ = parse_usage_response iso creds d₂)
    ∧ ((d₁.lookup "five_hour" = d₂.lookup "five_hour") →
      (d₁.lookup "dailyUsage" = d₂.lookup "dailyUsage") →
      (d₁.lookup "seven_day" = d₂.lookup "seven_day") → (d₁.lookup "seven_day").isSome →
      parse_usage_response iso creds d₁ = parse_usage_response iso creds d₂) := by
  constructor
  · intro h5 hsome h7 hlt
    obtain ⟨fh, hfh⟩ := Option.isSome_iff_exists.mp hsome
    exact parse_usage_response_congr iso creds
      (fun u => parseShortTerm_indep iso u hfh (h5 ▸ hfh))
      (fun u => parseLongTerm_congr iso u h7 hlt)
  · intro h5 hd h7 hsome
    obtain ⟨sv, hsv⟩ := Option.isSome_iff_exists.mp hsome
    exact parse_usage_response_congr iso creds
      (fun u => parseShortTerm_congr iso u h5 hd)
      (fun u => parseLongTerm_indep iso u hsv (h7 ▸ hsv))

/-- C8 (witness): a response carrying both `five_hour` (50) and a
conflicting legacy `dailyUsage` (99) parses exactly as the one without the
legacy entry. -/
theorem parse_prefers_current_format_witness :
    parse_usage_response noneIso none quotaFifty
      = parse_usage_response noneIso none quotaFiftyNoLegacy := by
  refine (parse_prefers_current_format noneIso none quotaFifty quotaFiftyNoLegacy).1 rfl rfl rfl rfl

/-- C7: the countdown string is `"Unknown"` for a missing reset instant,
`"Now"` for one at or before the current time, `"<hours>h <minutes>m"`
with hours and minutes obtained from the truncated remaining seconds when
at least one hour away, and `"<minutes>m"` otherwise; the derived
percentage is the usage fraction times 100 truncated toward zero. -/
theorem format_reset_characterization (u : UsageData) (now r : ℚ) :
    format_reset now none = "Unknown"
    ∧ (r ≤ now → format_reset now (some r) = "Now")
    ∧ (now < r → 3600 ≤ r - now →
        format_reset now (some r) =
          toString (⌊r - now⌋ / 3600) ++ "h " ++ toString (⌊r - now⌋ % 3600 / 60) ++ "m")
    ∧ (now < r → r - now < 3600 →
        format_reset now (some r) = toString (⌊r - now⌋ / 60) ++ "m")
    ∧ u.short_term_percent
        = (if 0 ≤ u.short_term_usage then ⌊u.short_term_usage * 100⌋ else ⌈u.short_term_usage * 100⌉)
    ∧ u.long_term_percent
        = (if 0 ≤ u.long_term_usage then ⌊u.long_term_usage * 100⌋ else ⌈u.long_term_usage * 100⌉) := by
  refine ⟨rfl, ?_, ?_, ?_, ?_, ?_⟩
  · intro h
    unfold format_reset
    dsimp only
    rw [if_pos (by linarith : r - now ≤ 0)]
  · intro h1 h2
    unfold format_reset
    dsimp only
    rw [if_neg (by linarith : ¬(r - now ≤ 0))]
    have hpy : pyInt (r - now) = ⌊r - now⌋ := by
      unfold pyInt
      rw [if_pos (by linarith : (0:ℚ) ≤ r - now)]
    rw [hpy]
    have hge : (3600:ℤ) ≤ ⌊r - now⌋ := Int.le_floor.mpr (by exact_mod_cast h2)
    rw [if_pos (by omega : 0 < ⌊r - now⌋ / 3600)]
    rfl
  · intro h1 h2
    unfold format_reset
    dsimp only
    rw [if_neg (by linarith : ¬(r - now ≤ 0))]
    have hpy : pyInt (r - now) = ⌊r - now⌋ := by
      unfold pyInt
      rw [if_pos (by linarith : (0:ℚ) ≤ r - now)]
    rw [hpy]
    have h0 : (0:ℤ) ≤ ⌊r - now⌋ := Int.floor_nonneg.mpr (by linarith)
    have hlt : ⌊r - now⌋ < 3600 := by
      have hq : ((⌊r - now⌋ : ℚ)) < 3600 := lt_of_le_of_lt (Int.floor_le (r - now)) h2
      exact_mod_cast hq
    rw [if_neg (by omega : ¬(0 < ⌊r - now⌋ / 3600))]
    have hm : ⌊r - now⌋ % 3600 = ⌊r - now⌋ := by omega
    rw [hm]
    rfl
  · unfold UsageData.short_term_percent pyInt
    rcases le_or_lt 0 u.short_term_usage with h | h
    · rw [if_pos (mul_nonneg h (by norm_num)), if_pos h]
    · rw [if_neg (by nlinarith : ¬(0:ℚ) ≤ u.short_term_usage * 100), if_neg (not_le.mpr h)]
  · unfold UsageData.long_term_percent pyInt
    rcases le_or_lt 0 u.long_term_usage with h | h
    · rw [if_pos (mul_nonneg h (by norm_num)), if_pos h]
    · rw [if_neg (by nlinarith : ¬(0:ℚ) ≤ u.long_term_usage * 100), if_neg (not_le.mpr h)]

/-- C7 (witness): concrete countdowns: 7260 s gives `"2h 1m"`, a missing
instant `"Unknown"`, a past instant `"Now"`. -/
theorem format_reset_characterization_witness :
    format_reset 0 (some 7260) = "2h 1m"
    ∧ format_reset 0 none = "Unknown"
    ∧ format_reset 10 (some 5) = "Now" := by
  refine ⟨?_, (format_reset_characterization {} 0 7260).1, ?_⟩
  · have h := (format_reset_characterization {} 0 7260).2.2.1 (by norm_num) (by norm_num)
    rw [h]
    norm_num
    decide
  · exact (format_reset_characterization {} 10 5).2.1 (by norm_num)

/-- C9 (amended): on a timestamp in the safe magnitude band
`_parse_timestamp` raises nothing uncaught; beyond it a large integer
makes the `/ 1000` scaling or `fromtimestamp` raise an uncaught
`OverflowError` (see the counterexample).  Its returned value is `None`
on falsy or unparseable input; a numeric value greater than 1e12 is
interpreted as milliseconds (divided by 1000) and any other numeric value
as seconds since the epoch in UTC; a string is parsed as ISO-8601 with
`"Z"` replaced by `"+00:00"`. -/
theorem parse_timestamp_characterization (iso : String → Option ℚ) (ts : Json) :
    (tsSafe ts → parse_timestamp_raw iso ts = .ok (parse_timestamp iso ts))
    ∧ (ts.truthy = false → parse_timestamp iso ts = none)
    ∧ (∀ q, ts = .num q → 10 ^ 12 < q →
        parse_timestamp iso ts = (fromtimestampUtc (q / 1000)).toOption)
    ∧ (∀ q, ts = .num q → q ≠ 0 → ¬10 ^ 12 < q →
        parse_timestamp iso ts = (fromtimestampUtc q).toOption)
    ∧ (∀ s, ts = .str s → s ≠ "" →
        parse_timestamp iso ts = iso (s.replace "Z" "+00:00")) := by
  refine ⟨parse_timestamp_raw_safe iso ts, ?_, ?_, ?_, ?_⟩
  · intro h
    have hraw : parse_timestamp_raw iso ts = .ok none := by
      unfold parse_timestamp_raw
      rw [h]
      rfl
    unfold parse_timestamp
    rw [hraw]
  · intro q hq hgt
    subst hq
    have hpos : (0:ℚ) < q := lt_trans (by norm_num) hgt
    have ht : (Json.num q).truthy = true := by
      simp only [Json.truthy, bne_iff_ne, ne_eq, decide_eq_true_eq]
      exact hpos.ne'
    unfold parse_timestamp
    rw [parse_timestamp_raw_truthy iso _ ht]
    unfold timestampAttempt
    dsimp only
    rw [if_pos hgt]
    by_cases hfit : q / 1000 < pyFloatLimit
    · rw [if_pos hfit]
      rcases he : fromtimestampUtc (q / 1000) with k | t
      · rcases fromtimestampUtc_error he with rfl | rfl <;>
          simp [Except.map, Except.toOption]
      · simp [Except.map, Except.toOption]
    · rw [if_neg hfit]
      have hge : pyFloatLimit ≤ q / 1000 := not_lt.mp hfit
      have hbig : fromtimestampUtc (q / 1000) = .error .overflowError := by
        unfold fromtimestampUtc
        rw [if_neg, if_neg]
        · rintro ⟨-, h2⟩
          have : (2 ^ 63 : ℚ) < pyFloatLimit := by norm_num [pyFloatLimit]
          linarith
        · rintro ⟨-, h2⟩
          have : (253402300800 : ℚ) < pyFloatLimit := by norm_num [pyFloatLimit]
          linarith
      rw [hbig]
      rfl
  · intro q hq hne hngt
    subst hq
    have ht : (Json.num q).truthy = true := by
      simp only [Json.truthy, bne_iff_ne, ne_eq, decide_eq_true_eq]
      exact hne
    unfold parse_timestamp
    rw [parse_timestamp_raw_truthy iso _ ht]
    unfold timestampAttempt
    dsimp only
    rw [if_neg hngt]
    rcases he : fromtimestampUtc q with k | t
    · rcases fromtimestampUtc_error he with rfl | rfl <;>
        simp [Except.map, Except.toOption]
    · simp [Except.map, Except.toOption]
  · intro s hs hne
    subst hs
    have ht : (Json.str s).truthy = true := by
      simp only [Json.truthy, bne_iff_ne, ne_eq, decide_eq_true_eq]
      exact hne
    unfold parse_timestamp
    rw [parse_timestamp_raw_truthy iso _ ht]
    unfold timestampAttempt
    dsimp only
    rcases he : iso (s.replace "Z" "+00:00") with _ | t <;> rfl

/-- C9 (counterexample): `_parse_timestamp` applied to the integer
`10 ^ 400` raises an uncaught `OverflowError` at the `ts / 1000`
scaling, so the function does not return. -/
theorem parse_timestamp_raises_on_huge_number :
    parse_timestamp_raw noneIso (.num (10 ^ 400)) = .error .overflowError := by
  have ht : (Json.num (10 ^ 400)).truthy = true := by
    simp only [Json.truthy, bne_iff_ne, ne_eq, decide_eq_true_eq]
    norm_num
  rw [parse_timestamp_raw_truthy noneIso _ ht]
  unfold timestampAttempt
  dsimp only
  rw [if_pos (by norm_num : (10:ℚ) ^ 12 < 10 ^ 400),
    if_neg (by norm_num [pyFloatLimit] : ¬((10:ℚ) ^ 400 / 1000 < pyFloatLimit))]
  rfl

/-- C9 (witness): 2e12 is within the safe band; it is treated as
milliseconds and parses, without raising, to the instant 2e9 seconds. -/
theorem parse_timestamp_characterization_witness :
    parse_timestamp noneIso (.num (2 * 10 ^ 12)) = some (2 * 10 ^ 9)
    ∧ parse_timestamp_raw noneIso (.num (2 * 10 ^ 12)) = .ok (some (2 * 10 ^ 9)) := by
  have h := (parse_timestamp_characterization noneIso (.num (2 * 10 ^ 12))).2.2.1
    (2 * 10 ^ 12) rfl (by norm_num)
  have hval : parse_timestamp noneIso (.num (2 * 10 ^ 12)) = some (2 * 10 ^ 9) := by
    rw [h]
    rw [show ((2 * 10 ^ 12 : ℚ) / 1000) = 2 * 10 ^ 9 by norm_num]
    rw [fromtimestampUtc, if_pos (by norm_num)]
    rfl
  have hraw := (parse_timestamp_characterization noneIso (.num (2 * 10 ^ 12))).1
    (by simp only [tsSafe]
        rw [abs_of_nonneg (by norm_num : (0:ℚ) ≤ 2 * 10 ^ 12)]
        norm_num)
  rw [hval] at hraw
  exact ⟨hval, hraw⟩

/-- C2 (amended): `fetch_usage` branches exhaustively on the HTTP
outcome: no credentials gives the configure-settings error; once the org
id resolves, status 200 gives the parsed snapshot (with the credential
source filled in) when the parser returns, and the stringified exception
as an error snapshot when the parser raises (a huge utilization makes its
`/ 100` raise `OverflowError`, uncaught inside the parser but caught by
the `except Exception` arm here - see the counterexample); 401 the
session-expired error; 403 the Cloudflare error when the body contains
"Just a moment" and "Access forbidden" otherwise; any other status the
"HTTP <status>" error; and timeout, connection failure or any other
exception the corresponding error string.  An unresolvable org id, or a
body that fails to decode as JSON, also returns an error snapshot. -/
theorem fetch_usage_branches (iso : String → Option ℚ) (creds : Option ClaudeCredentials)
    (orgFromApi : Option Json) (outcome : RequestOutcome) :
    (creds = none →
      fetch_usage iso creds orgFromApi outcome =
        { error := some "No credentials. Click Settings to configure." })
    ∧ (∀ c, creds = some c → truthyOpt (pyOr c.org_id orgFromApi) = false →
      fetch_usage iso creds orgFromApi outcome =
        { subscription_type := c.subscription_type, credential_source := c.source,
          error := some "Could not get organization ID. Check your session key." })
    ∧ (∀ c, creds = some c → truthyOpt (pyOr c.org_id orgFromApi) = true →
      (∀ text d u, outcome = .response 200 text (.ok d) →
        parse_usage_response_raw iso (some c) d = .ok u →
        fetch_usage iso creds orgFromApi outcome =
          { u with credential_source := c.source })
      ∧ (∀ text d k, outcome = .response 200 text (.ok d) →
        parse_usage_response_raw iso (some c) d = .error k →
        fetch_usage iso creds orgFromApi outcome =
          { credential_source := c.source, error := some (pyExnStr k) })
      ∧ (∀ text msg, outcome = .response 200 text (.error msg) →
        fetch_usage iso creds orgFromApi outcome =
          { credential_source := c.source, error := some msg })
      ∧ (∀ text body, outcome = .response 401 text body →
        fetch_usage iso creds orgFromApi outcome =
          { credential_source := c.source,
            error := some "Session expired. Update your session key." })
      ∧ (∀ text body, outcome = .response 403 text body → cloudflareBlocked text = true →
        fetch_usage iso creds orgFromApi outcome =
          { credential_source := c.source,
            error := some "Blocked by Cloudflare. Try again later." })
      ∧ (∀ text body, outcome = .response 403 text body → cloudflareBlocked text = false →
        fetch_usage iso creds orgFromApi outcome =
          { credential_source := c.source, error := some "Access forbidden" })
      ∧ (∀ s text body, outcome = .response s text body → s ≠ 200 → s ≠ 401 → s ≠ 403 →
        fetch_usage iso creds orgFromApi outcome =
          { credential_source := c.source, error := some s!"HTTP {s}" })
      ∧ (outcome = .timeout →
        fetch_usage iso creds orgFromApi outcome =
          { credential_source := c.source, error := some "Timed out" })
      ∧ (outcome = .connectionError →
        fetch_usage iso creds orgFromApi outcome =
          { credential_source := c.source, error := some "Connection failed" })
      ∧ (∀ msg, outcome = .otherException msg →
        fetch_usage iso creds orgFromApi outcome =
          { credential_source := c.source, error := some msg })) := by
  refine ⟨?_, ?_, ?_⟩
  · intro h
    subst h
    rfl
  · intro c hc horg
    subst hc
    unfold fetch_usage
    dsimp only
    rw [horg]
    rfl
  · intro c hc horg
    subst hc
    refine ⟨?_, ?_, ?_, ?_, ?_, ?_, ?_, ?_, ?_, ?_⟩
    · intro text d u h hraw
      subst h
      unfold fetch_usage
      dsimp only
      rw [horg]
      rw [hraw]
      rfl
    · intro text d k h hraw
      subst h
      unfold fetch_usage
      dsimp only
      rw [horg]
      rw [hraw]
      rfl
    · intro text msg h
      subst h
      unfold fetch_usage
      dsimp only
      rw [horg]
      try rfl
    · intro text body h
      subst h
      unfold fetch_usage
      dsimp only
      rw [horg]
      try rfl
    · intro text body h hcf
      subst h
      unfold fetch_usage
      dsimp only
      rw [horg]
      try rfl
      simp [hcf]
    · intro text body h hcf
      subst h
      unfold fetch_usage
      dsimp only
      rw [horg]
      try rfl
      simp [hcf]
    · intro s text body h h200 h401 h403
      subst h
      unfold fetch_usage
      dsimp only
      rw [horg]
      try rfl
      simp [h200, h401, h403]
    · intro h
      subst h
      unfold fetch_usage
      dsimp only
      rw [horg]
      try rfl
    · intro h
      subst h
      unfold fetch_usage
      dsimp only
      rw [horg]
      try rfl
    · intro msg h
      subst h
      unfold fetch_usage
      dsimp only
      rw [horg]
      try rfl

/-- C2 (witness): a concrete 401 response yields the session-expired
snapshot tagged with the manual source. -/
theorem fetch_usage_branches_witness :
    fetch_usage noneIso (some credsExample) none (.response 401 "" (.ok []))
      = { credential_source := "manual",
          error := some "Session expired. Update your session key." } := by
  have h := ((fetch_usage_branches noneIso (some credsExample) none
      (.response 401 "" (.ok []))).2.2 credsExample rfl rfl).2.2.2.1 "" (.ok []) rfl
  exact h

/-- C2 (counterexample): with manual credentials and a 200 response whose
body reports a `10 ^ 400` utilization, the parser raises `OverflowError`;
`fetch_usage` catches it in the `except Exception` arm and returns an
error snapshot carrying the exception text, not the parsed snapshot. -/
theorem fetch_usage_200_error_on_overflow :
    fetch_usage noneIso (some credsExample) none (.response 200 "" (.ok hugeUtil))
      = { credential_source := credsExample.source,
          error := some (pyExnStr .overflowError) } := by
  have hraw := parse_raw_overflow_hugeUtil noneIso (some credsExample)
  have horg : truthyOpt (pyOr credsExample.org_id none) = true := rfl
  unfold fetch_usage
  dsimp only
  rw [horg]
  rw [hraw]
  rfl

theorem fetch_usage_shape (iso : String → Option ℚ) (creds : Option ClaudeCredentials)
    (orgFromApi : Option Json) (outcome : RequestOutcome) :
    (∃ msg, (fetch_usage iso creds orgFromApi outcome).error = some msg
      ∧ (fetch_usage iso creds orgFromApi outcome).is_connected = false
      ∧ (fetch_usage iso creds orgFromApi outcome).short_term_usage = 0
      ∧ (fetch_usage iso creds orgFromApi outcome).long_term_usage = 0
      ∧ (fetch_usage iso creds orgFromApi outcome).short_term_reset = none
      ∧ (fetch_usage iso creds orgFromApi outcome).long_term_reset = none)
    ∨ ((fetch_usage iso creds orgFromApi outcome).error = none
      ∧ (fetch_usage iso creds orgFromApi outcome).is_connected = true) := by
  rcases creds with _ | c
  · exact .inl ⟨_, rfl, rfl, rfl, rfl, rfl, rfl⟩
  · unfold fetch_usage
    dsimp only
    rcases htr : truthyOpt (pyOr c.org_id orgFromApi) with _ | _
    · exact .inl ⟨_, rfl, rfl, rfl, rfl, rfl, rfl⟩
    · rcases outcome with ⟨status, text, body⟩ | _ | _ | msg
      · by_cases h200 : status = 200
        · subst h200
          rcases body with msg | d
          · exact .inl ⟨msg, rfl, rfl, rfl, rfl, rfl, rfl⟩
          · dsimp only
            rw [if_pos rfl]
            rcases hraw : parse_usage_response_raw iso (some c) d with k | u
            · exact .inl ⟨_, rfl, rfl, rfl, rfl, rfl, rfl⟩
            · obtain ⟨he, hic⟩ := parse_raw_ok_fields hraw
              exact .inr ⟨he, hic⟩
        · by_cases h401 : status = 401
          · subst h401
            exact .inl ⟨_, rfl, rfl, rfl, rfl, rfl, rfl⟩
          · by_cases h403 : status = 403
            · subst h403
              dsimp only
              rw [if_neg h200, if_neg h401, if_pos rfl]
              rcases hcf : cloudflareBlocked text with _ | _
              · exact .inl ⟨_, rfl, rfl, rfl, rfl, rfl, rfl⟩
              · exact .inl ⟨_, rfl, rfl, rfl, rfl, rfl, rfl⟩
            · dsimp only
              rw [if_neg h200, if_neg h401, if_neg h403]
              exact .inl ⟨_, rfl, rfl, rfl, rfl, rfl, rfl⟩
      · exact .inl ⟨_, rfl, rfl, rfl, rfl, rfl, rfl⟩
      · exact .inl ⟨_, rfl, rfl, rfl, rfl, rfl, rfl⟩
      · exact .inl ⟨msg, rfl, rfl, rfl, rfl, rfl, rfl⟩

/-- C4: for every snapshot `fetch_usage` returns, `is_connected` holds
exactly when `error` is `None`; a disconnected snapshot carries zero usage
fractions and no reset instants; and the display layer renders such a
snapshot as disconnected. -/
theorem fetch_usage_connectivity (iso : String → Option ℚ) (creds : Option ClaudeCredentials)
    (orgFromApi : Option Json) (outcome : RequestOutcome) (now : ℚ) :
    ((fetch_usage iso creds orgFromApi outcome).is_connected = true ↔
      (fetch_usage iso creds orgFromApi outcome).error = none)
    ∧ ((fetch_usage iso creds orgFromApi outcome).is_connected = false →
      (fetch_usage iso creds orgFromApi outcome).short_term_usage = 0
      ∧ (fetch_usage iso creds orgFromApi outcome).long_term_usage = 0
      ∧ (fetch_usage iso creds orgFromApi outcome).short_term_reset = none
      ∧ (fetch_usage iso creds orgFromApi outcome).long_term_reset = none)
    ∧ ((fetch_usage iso creds orgFromApi outcome).is_connected = false →
      update_display now (some (fetch_usage iso creds orgFromApi outcome)) = .disconnected) := by
  rcases fetch_usage_shape iso creds orgFromApi outcome with
    ⟨msg, he, hic, h1, h2, h3, h4⟩ | ⟨he, hic⟩
  · refine ⟨?_, fun _ => ⟨h1, h2, h3, h4⟩, fun _ => ?_⟩
    · rw [he, hic]
      simp
    · unfold update_display
      dsimp only
      rw [hic]
      rfl
  · refine ⟨?_, ?_, ?_⟩
    · rw [he, hic]
      simp
    · intro h
      rw [hic] at h
      cases h
    · intro h
      rw [hic] at h
      cases h

/-- C4 (witness): the timeout snapshot is disconnected, satisfies the
equivalence, and renders as the disconnected display. -/
theorem fetch_usage_connectivity_witness :
    ((fetch_usage noneIso none none .timeout).is_connected = true ↔
      (fetch_usage noneIso none none .timeout).error = none)
    ∧ update_display 0 (some (fetch_usage noneIso none none .timeout)) = .disconnected := by
  refine ⟨(fetch_usage_connectivity noneIso none none .timeout 0).1, ?_⟩
  exact (fetch_usage_connectivity noneIso none none .timeout 0).2.2 rfl
